import Mathlib

/-!
Verification development for the Docker-Guardian decision engine.

Shallow embedding conventions:
* Instants and durations (Go `time.Time` / `time.Duration`) are rationals,
  measured in seconds; the Go zero `time.Time` is the instant `0`, and every
  real clock reading is nonnegative.  The Go code multiplies a duration by a
  `float64` multiplier; here that multiplication is exact rational
  multiplication.
* Go maps become association-free functions `String → Option _`; the Go
  zero-value struct becomes an explicit `empty…` constant.
* A Go `panic` (out-of-range slice) is `Option.none`; fallible runtime calls
  are `Option`-valued inputs supplied by an environment record.
* Side effects (runtime calls, dispatched notifications, hook invocations)
  are reified as a list of `Effect` values in the order the code performs
  them; console `fmt.Printf` logging is not modelled.
-/

namespace DockerGuardian

/-! ## Restart tracker (internal/guardian/tracker.go) -/

/-- SkipReason from tracker.go: why a restart was suppressed. -/
inductive SkipReason where
  | skipNone
  | skipBackoff
  | skipCircuit
deriving DecidableEq, Repr

/-- TrackerConfig from tracker.go (times in seconds). -/
structure TrackerConfig where
  backoffMultiplier : ℚ
  backoffMax : ℚ
  backoffResetAfter : ℚ
  restartBudget : ℤ
  restartWindow : ℚ
deriving DecidableEq, Repr

/-- DefaultTrackerConfig from tracker.go. -/
def defaultTrackerConfig : TrackerConfig :=
  { backoffMultiplier := 2, backoffMax := 300, backoffResetAfter := 600,
    restartBudget := 5, restartWindow := 300 }

/-- ContainerHistory from tracker.go. -/
structure ContainerHistory where
  restarts : List ℚ
  backoffUntil : ℚ
  backoffDelay : ℚ
  circuitOpen : Bool
  unhealthyCount : ℤ
deriving DecidableEq, Repr

/-- The Go zero value `&ContainerHistory{}` produced by `getOrCreate`. -/
def emptyHistory : ContainerHistory :=
  { restarts := [], backoffUntil := 0, backoffDelay := 0,
    circuitOpen := false, unhealthyCount := 0 }

/-- The in-place stable compaction loop inside `pruneOld`: keep the
timestamps `t` with `t.After(cutoff)`, i.e. `cutoff < t`, in order. -/
def pruneRestarts (cutoff : ℚ) : List ℚ → List ℚ
  | [] => []
  | t :: ts => if cutoff < t then t :: pruneRestarts cutoff ts else pruneRestarts cutoff ts

/-- RestartTracker.pruneOld: no-op when the window is nonpositive, otherwise
drop restarts at or before `now - window`. -/
def pruneOld (cfg : TrackerConfig) (now : ℚ) (h : ContainerHistory) : ContainerHistory :=
  if cfg.restartWindow ≤ 0 then h
  else { h with restarts := pruneRestarts (now - cfg.restartWindow) h.restarts }

/-- RestartTracker.ShouldRestart on a single container history.  Returns the
updated history (pruning persists, and the budget branch opens the circuit)
together with `(allowed, skipReason)`. -/
def shouldRestartH (cfg : TrackerConfig) (now : ℚ) (h : ContainerHistory) :
    ContainerHistory × Bool × SkipReason :=
  let hp := pruneOld cfg now h
  if hp.circuitOpen then (hp, false, .skipCircuit)
  else if now < hp.backoffUntil then (hp, false, .skipBackoff)
  else if 0 < cfg.restartBudget ∧ cfg.restartBudget ≤ (hp.restarts.length : ℤ) then
    ({ hp with circuitOpen := true }, false, .skipCircuit)
  else (hp, true, .skipNone)

/-- RestartTracker.RecordRestart on a single container history: append `now`,
advance the backoff delay (initial 10 s, otherwise multiplied), cap it at
`backoffMax`, and set `backoffUntil = now + delay`. -/
def recordRestartH (cfg : TrackerConfig) (now : ℚ) (h : ContainerHistory) : ContainerHistory :=
  let d1 := if h.backoffDelay = 0 then 10 else h.backoffDelay * cfg.backoffMultiplier
  let d2 := if cfg.backoffMax < d1 then cfg.backoffMax else d1
  { h with restarts := h.restarts ++ [now], backoffDelay := d2, backoffUntil := now + d2 }

/-- RestartTracker.BackoffRemaining on a single history: `backoffUntil - now`
clamped at zero. -/
def backoffRemainingH (h : ContainerHistory) (now : ℚ) : ℚ :=
  if h.backoffUntil - now < 0 then 0 else h.backoffUntil - now

/-- The tracker's `history` map, keyed by container id. -/
def Tracker : Type := String → Option ContainerHistory

/-- A freshly created tracker: `make(map[string]*ContainerHistory)`. -/
def emptyTracker : Tracker := fun _ => none

/-- Store an updated history under `id`. -/
def trackerUpdate (tr : Tracker) (id : String) (h : ContainerHistory) : Tracker :=
  fun i => if i = id then some h else tr i

/-- RestartTracker.ShouldRestart: `getOrCreate`, decide, and persist the
mutated history. -/
def trackerShouldRestart (cfg : TrackerConfig) (now : ℚ) (tr : Tracker) (id : String) :
    Tracker × Bool × SkipReason :=
  let r := shouldRestartH cfg now ((tr id).getD emptyHistory)
  (trackerUpdate tr id r.1, r.2.1, r.2.2)

/-- RestartTracker.RecordRestart at the map level. -/
def trackerRecordRestart (cfg : TrackerConfig) (now : ℚ) (tr : Tracker) (id : String) : Tracker :=
  trackerUpdate tr id (recordRestartH cfg now ((tr id).getD emptyHistory))

/-- RestartTracker.Reset: delete the map entry for `id`. -/
def trackerReset (tr : Tracker) (id : String) : Tracker :=
  fun i => if i = id then none else tr i

/-- RestartTracker.IsCircuitOpen. -/
def trackerIsCircuitOpen (tr : Tracker) (id : String) : Bool :=
  match tr id with
  | none => false
  | some h => h.circuitOpen

/-- RestartTracker.BackoffRemaining at the map level. -/
def trackerBackoffRemaining (tr : Tracker) (now : ℚ) (id : String) : ℚ :=
  match tr id with
  | none => 0
  | some h => backoffRemainingH h now

/-! ## Guard pipeline (internal/guardian/guards.go) -/

/-- Container labels, a string-to-string map. -/
abbrev Labels : Type := List (String × String)

/-- Go map lookup on a labels map. -/
def lookupLabel (ls : Labels) (k : String) : Option String :=
  (ls.find? fun p => p.1 == k).map fun p => p.2

/-- Go string slicing `id[:12]`: panics (`none`) when the string has fewer
than 12 characters.  Container ids are ASCII hex, so byte and character
counts coincide; string operations work on character lists so that they
evaluate by kernel reduction. -/
def goSliceTo12 (s : String) : Option String :=
  if 12 ≤ s.length then some ((s.toList.take 12).asString) else none

/-- Whether `pat` is a leading segment of `s` (on character lists). -/
def charsLeading : List Char → List Char → Bool
  | [], _ => true
  | _ :: _, [] => false
  | a :: ps, b :: ss => a == b && charsLeading ps ss

/-- strings.HasPrefix(s, pre). -/
def goHasPre (s pre : String) : Bool :=
  charsLeading pre.toList s.toList

/-- strings.TrimPrefix(s, pre). -/
def goTrimPre (s pre : String) : String :=
  if goHasPre s pre then (s.toList.drop pre.toList.length).asString else s

/-- strings.TrimPrefix(name, "/"). -/
def trimLeadingSlash (s : String) : String :=
  goTrimPre s "/"

/-- Whether `pat` occurs contiguously inside `s` (on character lists). -/
def charsContains : List Char → List Char → Bool
  | [], pat => pat.isEmpty
  | b :: rest, pat => charsLeading pat (b :: rest) || charsContains rest pat

/-- strings.Contains(s, sub). -/
def strContains (s sub : String) : Bool :=
  charsContains s.toList sub.toList

/-- A raw container event as returned by the runtime event query; `name` is
the actor attribute the guard compares against. -/
structure OrchEvent where
  name : String
  action : String
  time : ℚ
deriving DecidableEq, Repr

/-- Modelled from the spec: the runtime-side window filtering performed by
`docker.Client.ContainerEvents(since, until, orchestrationOnly)` (the query
itself only forwards `since`/`until`/filters to the container runtime, which
is outside this repository).  Per the spec it yields the ledger of container
events inside the window, restricted to `destroy`/`create` when
`orchestrationOnly` is set. -/
def containerEventsQuery (log : List OrchEvent) (since untilT : ℚ)
    (orchestrationOnly : Bool) : List OrchEvent :=
  log.filter fun e =>
    decide (since ≤ e.time) && decide (e.time ≤ untilT) &&
      (!orchestrationOnly || (e.action == "destroy" || e.action == "create"))

/-- The guardian configuration fields the guard pipeline and the two
handlers read (internal/config, times in seconds). -/
structure Config where
  watchtowerCooldown : ℤ
  watchtowerScope : String
  watchtowerEvents : String
  gracePeriod : ℤ
  backupLabel : String
  backupContainer : String
  defaultStopTimeout : ℤ
  dependencyStartDelay : ℤ
  postRestartScript : String
deriving DecidableEq, Repr

/-- A running container as seen by `checkBackupRunning`. -/
structure RunningSummary where
  names : List String
  image : String
deriving DecidableEq, Repr

/-- The runtime responses one `shouldSkip` evaluation can observe:
the event log behind the orchestration query (with its error flag),
the container's `finishedAt` (`none` models a failed call), and the
running-container listing (`none` models a failed call). -/
structure GuardEnv where
  eventLog : List OrchEvent
  eventsErr : Bool
  finishedAt : Option ℚ
  running : Option (List RunningSummary)
deriving DecidableEq, Repr

/-- Guardian.fetchOrchestrationEvents: query the window
`[now - cooldown, now]`, orchestration-only unless `watchtowerEvents` is
`all`; on query error the cached list stays empty. -/
def fetchOrchestrationEvents (cfg : Config) (env : GuardEnv) (now : ℚ) : List OrchEvent :=
  if env.eventsErr then []
  else containerEventsQuery env.eventLog (now - (cfg.watchtowerCooldown : ℚ)) now
    (cfg.watchtowerEvents != "all")

/-- Guardian.isContainerInOrchestration. -/
def isContainerInOrchestration (events : List OrchEvent) (containerName : String) : Bool :=
  events.any fun e => e.name == containerName

/-- Guardian.isBackupManaged. -/
def isBackupManaged (cfg : Config) (labels : Labels) : Bool :=
  if cfg.backupLabel == "" then false
  else (lookupLabel labels cfg.backupLabel).isSome

/-- Guardian.checkBackupRunning (cachedBackupRunning's underlying check; a
listing error yields `false`). -/
def checkBackupRunning (cfg : Config) (env : GuardEnv) : Bool :=
  match env.running with
  | none => false
  | some cs => cs.any fun c =>
      if cfg.backupContainer != "" then
        c.names.any fun n => strContains n cfg.backupContainer
      else strContains c.image "docker-volume-backup"

/-- The orchestration-cooldown guard condition of `shouldSkip`. -/
def orchCond (cfg : Config) (env : GuardEnv) (now : ℚ) (cleanName : String) : Bool :=
  decide (0 < cfg.watchtowerCooldown) &&
    (if cfg.watchtowerScope == "affected" then
      isContainerInOrchestration (fetchOrchestrationEvents cfg env now) cleanName
    else !(fetchOrchestrationEvents cfg env now).isEmpty)

/-- The grace-period guard condition of `shouldSkip`: a failed `finishedAt`
call is treated as no data. -/
def graceCond (cfg : Config) (env : GuardEnv) (now : ℚ) : Bool :=
  decide (0 < cfg.gracePeriod) &&
    (match env.finishedAt with
     | some f => decide (now - f < (cfg.gracePeriod : ℚ))
     | none => false)

/-- The backup-awareness guard condition of `shouldSkip`. -/
def backupCond (cfg : Config) (env : GuardEnv) (labels : Labels) : Bool :=
  isBackupManaged cfg labels && checkBackupRunning cfg env

/-- The dispatcher text emitted by the orchestration skip. -/
def skipMsgOrch (cleanName shortID : String) : String :=
  "Container " ++ cleanName ++ " (" ++ shortID ++ ") skipped - orchestration activity"

/-- The dispatcher text emitted by the grace-period skip. -/
def skipMsgGrace (cleanName shortID : String) : String :=
  "Container " ++ cleanName ++ " (" ++ shortID ++ ") skipped - grace period"

/-- The dispatcher text emitted by the backup-awareness skip. -/
def skipMsgBackup (cleanName shortID : String) : String :=
  "Container " ++ cleanName ++ " (" ++ shortID ++ ") skipped - backup running"

/-- Guardian.shouldSkip: slice the short id (panic point), then test the
three guards in order, returning the decision together with the dispatcher
skip texts emitted. -/
def shouldSkip (cfg : Config) (env : GuardEnv) (now : ℚ)
    (containerID containerName : String) (labels : Labels) :
    Option (Bool × List String) :=
  (goSliceTo12 containerID).map fun shortID =>
    let cleanName := trimLeadingSlash containerName
    if orchCond cfg env now cleanName then (true, [skipMsgOrch cleanName shortID])
    else if graceCond cfg env now then (true, [skipMsgGrace cleanName shortID])
    else if backupCond cfg env labels then (true, [skipMsgBackup cleanName shortID])
    else (false, [])

/-! ## Unhealthy handler (guardian checkUnhealthy) and dependency resolver -/

/-- The observable side effects of one handler pass, in program order:
runtime action calls, dispatcher notifications, and the post-restart hook.
Console logging is not modelled. -/
inductive Effect where
  | restartCall (id : String) (timeout : ℤ)
  | stopCall (id : String) (timeout : ℤ)
  | startCall (id : String)
  | notifyAction (text : String)
  | skipNote (text : String)
  | postScript (name shortID state : String) (timeout : ℤ)
deriving DecidableEq, Repr

/-- container.Summary as the handlers read it. -/
structure Summary where
  id : String
  names : List String
  labels : Labels
  state : String
deriving Repr

/-- containerAction: the per-container action label, defaulting to
restart for missing or unknown values. -/
def containerAction (labels : Labels) : String :=
  match lookupLabel labels "autoheal.action" with
  | some a => if a == "restart" || a == "stop" || a == "notify" || a == "none" then a
              else "restart"
  | none => "restart"

/-- RestartTracker.FormatSkipReason for the circuit case (the only one whose
text reaches the notifier). -/
def formatSkipReasonCircuit (name : String) : String :=
  "Container " ++ name ++ " circuit open (restart budget exhausted)"

/-- Guardian.runPostRestartScript: a no-op unless a script is configured. -/
def postScriptEffects (cfg : Config) (name shortID state : String) (timeout : ℤ) : List Effect :=
  if cfg.postRestartScript == "" then []
  else [Effect.postScript name shortID state timeout]

/-- The `autoheal.stop.timeout` label override; strconv.Atoi on the decimal
label value, keeping the default on parse failure. -/
def parseStopTimeout (labels : Labels) (dflt : ℤ) : ℤ :=
  match lookupLabel labels "autoheal.stop.timeout" with
  | some v =>
    match v.toInt? with
    | some n => n
    | none => dflt
  | none => dflt

/-- Whether the runtime action calls made for this container succeed. -/
structure UnhealthyEnv where
  guard : GuardEnv
  restartOk : Bool
  stopOk : Bool
deriving DecidableEq, Repr

/-- One iteration of the `checkUnhealthy` loop (unnamed guardian source,
`Guardian.checkUnhealthy`) for a single unhealthy container: label opt-out,
short-id slice (panic point), action label, restarting-state check, guard
pipeline, notify-only action, tracker consultation, then the stop or
restart action with its notification, `RecordRestart`, and the hook. -/
def checkUnhealthyStep (cfg : Config) (tcfg : TrackerConfig) (env : UnhealthyEnv)
    (now : ℚ) (tr : Tracker) (c : Summary) : Option (List Effect × Tracker) :=
  if lookupLabel c.labels "autoheal" == some "False" then some ([], tr)
  else if c.names.isEmpty then some ([], tr)
  else
    (goSliceTo12 c.id).bind fun shortID =>
      let name := trimLeadingSlash (c.names.headD "")
      let action := containerAction c.labels
      if action == "none" then some ([], tr)
      else if c.state == "restarting" then some ([], tr)
      else
        (shouldSkip cfg env.guard now c.id name c.labels).bind fun skip =>
          if skip.1 then some (skip.2.map Effect.skipNote, tr)
          else if action == "notify" then
            some ([Effect.notifyAction
              ("Container " ++ name ++ " (" ++ shortID ++ ") found to be unhealthy (action=notify)")], tr)
          else
            let sr := trackerShouldRestart tcfg now tr c.id
            if !sr.2.1 then
              some ((if sr.2.2 == SkipReason.skipCircuit then
                      [Effect.notifyAction ("[CRITICAL] " ++ formatSkipReasonCircuit name)]
                    else []), sr.1)
            else
              let timeout := parseStopTimeout c.labels cfg.defaultStopTimeout
              if action == "stop" then
                let note := if env.stopOk then
                    Effect.notifyAction ("Container " ++ name ++ " (" ++ shortID ++
                      ") found to be unhealthy. Stopped (quarantined).")
                  else
                    Effect.notifyAction ("Container " ++ name ++ " (" ++ shortID ++
                      ") found to be unhealthy. Failed to stop (quarantine)!")
                some ([Effect.stopCall c.id timeout, note],
                      trackerRecordRestart tcfg now sr.1 c.id)
              else
                let note := if env.restartOk then
                    Effect.notifyAction ("Container " ++ name ++ " (" ++ shortID ++
                      ") found to be unhealthy. Successfully restarted the container!")
                  else
                    Effect.notifyAction ("Container " ++ name ++ " (" ++ shortID ++
                      ") found to be unhealthy. Failed to restart the container!")
                some ([Effect.restartCall c.id timeout, note] ++
                        postScriptEffects cfg name shortID c.state timeout,
                      trackerRecordRestart tcfg now sr.1 c.id)

/-- container.InspectResponse as the dependency resolver reads it. -/
structure InspectInfo where
  name : String
  networkMode : String
  exitCode : ℤ
  labels : Labels
deriving Repr

/-- The runtime responses one dependency-resolver iteration can observe:
the child's inspect result, the parent's status before and after the start
delay, the child's re-checked status, and whether the start call succeeds.
`none` models a failed call throughout. -/
structure DepEnv where
  guard : GuardEnv
  inspectResult : Option InspectInfo
  parentStatus1 : Option String
  parentStatus2 : Option String
  childStatus2 : Option String
  startOk : Bool
deriving Repr

/-- The tail of a dependency-resolver iteration after the start delay: the
child's status is re-checked (an error proceeds), then the start call, its
notification, and the hook. -/
def depStartTail (cfg : Config) (env : DepEnv) (c : Summary)
    (name shortID : String) : List Effect :=
  let recovered := match env.childStatus2 with
    | some cs => cs != "exited"
    | none => false
  if recovered then []
  else
    [Effect.startCall c.id,
     Effect.notifyAction (if env.startOk then
        "Container " ++ name ++ " (" ++ shortID ++ ") orphaned (parent running). Successfully started!"
      else
        "Container " ++ name ++ " (" ++ shortID ++ ") orphaned (parent running). Failed to start!")] ++
      postScriptEffects cfg name shortID "orphaned" 0

/-- One iteration of the `checkDependencyOrphans` loop
(internal/guardian/dependency.go) for a single exited container: inspect
(an error skips), the `container:` network-mode test, the parent status
check, the short-id slice (panic point), the guard pipeline, the logged
parent short id (a second panic point), the optional start delay with its
parent re-check, and `depStartTail`. -/
def checkDependencyOrphansStep (cfg : Config) (env : DepEnv) (now : ℚ)
    (c : Summary) : Option (List Effect) :=
  match env.inspectResult with
  | none => some []
  | some info =>
    if !(goHasPre info.networkMode "container:") then some []
    else
      let parentID := goTrimPre info.networkMode "container:"
      match env.parentStatus1 with
      | none => some []
      | some st =>
        if st != "running" then some []
        else
          (goSliceTo12 c.id).bind fun shortID =>
            let name := trimLeadingSlash info.name
            (shouldSkip cfg env.guard now c.id name info.labels).bind fun skip =>
              if skip.1 then some (skip.2.map Effect.skipNote)
              else
                (goSliceTo12 parentID).bind fun _parentShort =>
                  if 0 < cfg.dependencyStartDelay then
                    match env.parentStatus2 with
                    | none => some []
                    | some st2 =>
                      if st2 != "running" then some []
                      else some (depStartTail cfg env c name shortID)
                  else some (depStartTail cfg env c name shortID)

/-! ## Event watcher reconnection (unnamed docker source, `Watcher.Watch`) -/

/-- One reconnect-backoff advance of the Watch loop: double the delay and
cap it at the 30-second `reconnectMax`. -/
def watchBackoffStep (b : ℕ) : ℕ := min (b * 2) 30

/-- The reconnect delays (in seconds) the Watch goroutine sleeps after each
`streamEvents` session returns, starting from the given backoff.  Each list
entry records whether that session was a successful stream open; the loop
never reads it — the delay only doubles. -/
def watchDelaysAux : ℕ → List Bool → List ℕ
  | _, [] => []
  | b, _ :: rest => b :: watchDelaysAux (watchBackoffStep b) rest

/-- The reconnect delays of `Watcher.Watch` across a run of sessions,
starting from the initial 1-second backoff. -/
def watcherDelays (sessions : List Bool) : List ℕ :=
  watchDelaysAux 1 sessions

/-- Modelled from the spec: the reconnect delays the specification requires,
with the backoff reset to its initial 1 s on each successful stream open.
The reset is absent from the code (`streamEvents` carries the comment
"Reset backoff on successful connection" with no corresponding code, and the
`livenessWindow` field is never read). -/
def watchDelaysSpecAux : ℕ → List Bool → List ℕ
  | _, [] => []
  | b, ok :: rest =>
    let b1 := if ok then 1 else b
    b1 :: watchDelaysSpecAux (watchBackoffStep b1) rest

/-- Modelled from the spec: reconnect delays with reset-on-success, from the
initial 1-second backoff. -/
def watcherDelaysSpec (sessions : List Bool) : List ℕ :=
  watchDelaysSpecAux 1 sessions

/-! ## Operation traces over one container history -/

/-- A raw tracker call on one container's history, tagged with the clock
reading at the call. -/
inductive TrackerOp where
  | record (t : ℚ)
  | should (t : ℚ)
deriving DecidableEq, Repr

/-- Apply one raw tracker call to a history. -/
def applyTrackerOp (cfg : TrackerConfig) (h : ContainerHistory) : TrackerOp → ContainerHistory
  | .record t => recordRestartH cfg t h
  | .should t => (shouldRestartH cfg t h).1

/-- Run a sequence of raw tracker calls from the fresh history. -/
def applyTrackerOps (cfg : TrackerConfig) (ops : List TrackerOp) : ContainerHistory :=
  ops.foldl (applyTrackerOp cfg) emptyHistory

/-- A tracker call as the engine issues it: `checkedRestart t1 t2` is a
`ShouldRestart` at time `t1` followed, only when it allowed, by a
`RecordRestart` at time `t2`; the remaining constructors are the other
mutating calls. -/
inductive EngineOp where
  | checkedRestart (t1 t2 : ℚ)
  | shouldOnly (t : ℚ)
  | resetOp
  | recordUnhealthyOp
  | resetUnhealthyOp
deriving DecidableEq, Repr

/-- Apply one engine-level tracker call to a history (a reset deletes the
map entry, so the next access sees the fresh history). -/
def applyEngineOp (cfg : TrackerConfig) (h : ContainerHistory) : EngineOp → ContainerHistory
  | .checkedRestart t1 t2 =>
    let r := shouldRestartH cfg t1 h
    if r.2.1 then recordRestartH cfg t2 r.1 else r.1
  | .shouldOnly t => (shouldRestartH cfg t h).1
  | .resetOp => emptyHistory
  | .recordUnhealthyOp => { h with unhealthyCount := h.unhealthyCount + 1 }
  | .resetUnhealthyOp => { h with unhealthyCount := 0 }

/-- Run a sequence of engine-level calls from the fresh history. -/
def applyEngineOps (cfg : TrackerConfig) (ops : List EngineOp) : ContainerHistory :=
  ops.foldl (applyEngineOp cfg) emptyHistory

/-- Well-formedness of an engine-level call: the record half of a checked
restart does not happen before its check. -/
def engineOpWF : EngineOp → Prop
  | .checkedRestart t1 t2 => t1 ≤ t2
  | _ => True

/-- The per-container history invariant of the specification's data model:
every recorded restart lies at or before `backoffUntil`; the restart count
respects the budget while the circuit is closed; the backoff delay is
nonnegative. -/
def trackerInv (cfg : TrackerConfig) (h : ContainerHistory) : Prop :=
  (h.circuitOpen = false → (h.restarts.length : ℤ) ≤ cfg.restartBudget)
  ∧ (∀ r ∈ h.restarts, r ≤ h.backoffUntil)
  ∧ 0 ≤ h.backoffDelay

/-- Run a sequence of `RecordRestart` calls at the given times. -/
def recordSeq (cfg : TrackerConfig) (ts : List ℚ) (h : ContainerHistory) : ContainerHistory :=
  ts.foldl (fun acc t => recordRestartH cfg t acc) h

/-- C1: for every container, `ShouldRestart` evaluates its checks in the
fixed order prune, circuit, backoff, budget: an open circuit returns
`(false, circuit)` even when the backoff also applies, a live backoff is
reported next, a call that exhausts a positive budget opens the circuit and
returns `(false, circuit)` (not backoff), and otherwise the restart is
allowed with no reason. -/
theorem claim_C1_shouldRestart_order (cfg : TrackerConfig) (h : ContainerHistory) (now : ℚ) :
    ((pruneOld cfg now h).circuitOpen = true →
      shouldRestartH cfg now h = (pruneOld cfg now h, false, SkipReason.skipCircuit))
    ∧ ((pruneOld cfg now h).circuitOpen = false → now < (pruneOld cfg now h).backoffUntil →
      shouldRestartH cfg now h = (pruneOld cfg now h, false, SkipReason.skipBackoff))
    ∧ ((pruneOld cfg now h).circuitOpen = false → (pruneOld cfg now h).backoffUntil ≤ now →
      0 < cfg.restartBudget → cfg.restartBudget ≤ ((pruneOld cfg now h).restarts.length : ℤ) →
      shouldRestartH cfg now h =
        ({ pruneOld cfg now h with circuitOpen := true }, false, SkipReason.skipCircuit))
    ∧ ((pruneOld cfg now h).circuitOpen = false → (pruneOld cfg now h).backoffUntil ≤ now →
      ¬ (0 < cfg.restartBudget ∧ cfg.restartBudget ≤ ((pruneOld cfg now h).restarts.length : ℤ)) →
      shouldRestartH cfg now h = (pruneOld cfg now h, true, SkipReason.skipNone)) := by
  refine ⟨?_, ?_, ?_, ?_⟩
  · intro hc
    simp [shouldRestartH, hc]
  · intro hc hb
    simp [shouldRestartH, hc, hb]
  · intro hc hb hbud hlen
    simp [shouldRestartH, hc, not_lt.mpr hb, hbud, hlen]
  · intro hc hb hnb
    simp [shouldRestartH, hc, not_lt.mpr hb, hnb]

/-- C1 witness: a history whose circuit is open and whose backoff is still
live at the call time is refused with reason circuit. -/
theorem claim_C1_witness :
    shouldRestartH defaultTrackerConfig 50
        { restarts := [0], backoffUntil := 100, backoffDelay := 10,
          circuitOpen := true, unhealthyCount := 0 }
      = (pruneOld defaultTrackerConfig 50
          { restarts := [0], backoffUntil := 100, backoffDelay := 10,
            circuitOpen := true, unhealthyCount := 0 }, false, SkipReason.skipCircuit) :=
  (claim_C1_shouldRestart_order defaultTrackerConfig
    { restarts := [0], backoffUntil := 100, backoffDelay := 10,
      circuitOpen := true, unhealthyCount := 0 } 50).1 (by decide)

/-- C5: immediately after `Reset(id)` the next `ShouldRestart(id)` allows
the restart with no reason, `BackoffRemaining(id)` is zero, and the tracker
state observable for `id` is identical to that of a container it has never
seen. -/
theorem claim_C5_reset (cfg : TrackerConfig) (tr : Tracker) (id : String) (now : ℚ)
    (hnow : 0 ≤ now) :
    (trackerShouldRestart cfg now (trackerReset tr id) id).2 = (true, SkipReason.skipNone)
    ∧ trackerBackoffRemaining (trackerReset tr id) now id = 0
    ∧ trackerIsCircuitOpen (trackerReset tr id) id = false
    ∧ trackerReset tr id id = emptyTracker id
    ∧ (trackerShouldRestart cfg now (trackerReset tr id) id).2
        = (trackerShouldRestart cfg now emptyTracker id).2
    ∧ trackerBackoffRemaining (trackerReset tr id) now id
        = trackerBackoffRemaining emptyTracker now id := by
  have hres : trackerReset tr id id = none := by
    simp [trackerReset]
  have hprune : pruneOld cfg now emptyHistory = emptyHistory := by
    unfold pruneOld
    split <;> simp [emptyHistory, pruneRestarts]
  have hshould : shouldRestartH cfg now emptyHistory = (emptyHistory, true, SkipReason.skipNone) := by
    have h2 : ¬ now < (0 : ℚ) := not_lt.mpr hnow
    have h3 : ¬ (0 < cfg.restartBudget ∧ cfg.restartBudget ≤ (0 : ℤ)) := by omega
    simp only [shouldRestartH]
    rw [hprune]
    simp [emptyHistory, h2, h3]
  refine ⟨?_, ?_, ?_, ?_, ?_, ?_⟩
  · simp [trackerShouldRestart, hres, hshould]
  · simp [trackerBackoffRemaining, hres]
  · simp [trackerIsCircuitOpen, hres]
  · simp [hres, emptyTracker]
  · simp [trackerShouldRestart, hres, emptyTracker]
  · simp [trackerBackoffRemaining, hres, emptyTracker]

/-- C5 witness: after resetting a container that had history and an open
circuit, the next check allows the restart and the remaining backoff is
zero. -/
theorem claim_C5_witness :
    (trackerShouldRestart defaultTrackerConfig 3
        (trackerReset
          (trackerUpdate emptyTracker "c1"
            { restarts := [0, 1], backoffUntil := 21, backoffDelay := 20,
              circuitOpen := true, unhealthyCount := 0 }) "c1") "c1").2
      = (true, SkipReason.skipNone)
    ∧ trackerBackoffRemaining
        (trackerReset
          (trackerUpdate emptyTracker "c1"
            { restarts := [0, 1], backoffUntil := 21, backoffDelay := 20,
              circuitOpen := true, unhealthyCount := 0 }) "c1") 3 "c1" = 0 := by
  have h := claim_C5_reset defaultTrackerConfig
    (trackerUpdate emptyTracker "c1"
      { restarts := [0, 1], backoffUntil := 21, backoffDelay := 20,
        circuitOpen := true, unhealthyCount := 0 }) "c1" 3 (by norm_num)
  exact ⟨h.1, h.2.1⟩

/-- C8: the watcher's reconnect delays under repeated failures are
1,2,4,8,16,30,30,… seconds as claimed, but the backoff never resets on a
successful stream open: after two failures, a successful session and a new
failure, the code sleeps 4 s where the claimed reset demands 1 s. -/
theorem claim_C8_no_backoff_reset :
    watcherDelays [false, false, false, false, false, false, false]
      = [1, 2, 4, 8, 16, 30, 30]
    ∧ watcherDelays [false, false, true, false] = [1, 2, 4, 8]
    ∧ watcherDelaysSpec [false, false, true, false] = [1, 2, 1, 2]
    ∧ watcherDelays [false, false, true, false]
        ≠ watcherDelaysSpec [false, false, true, false] := by
  refine ⟨by decide, by decide, by decide, by decide⟩

/-- C7: an unhealthy container labelled autoheal.notify=false is restarted,
yet the engine still emits the action text to the notifier — the label is
never consulted, contradicting the repository's documented suppression. -/
theorem claim_C7_notify_label_ignored :
    ((checkUnhealthyStep
        { watchtowerCooldown := 0, watchtowerScope := "all",
          watchtowerEvents := "orchestration", gracePeriod := 0,
          backupLabel := "", backupContainer := "", defaultStopTimeout := 10,
          dependencyStartDelay := 0, postRestartScript := "" }
        defaultTrackerConfig
        { guard := { eventLog := [], eventsErr := false, finishedAt := none, running := none },
          restartOk := true, stopOk := true }
        0 emptyTracker
        { id := "abcdefghijklmnop", names := ["/web"],
          labels := [("autoheal.notify", "false")], state := "unhealthy" }).map
      Prod.fst)
      = some [Effect.restartCall "abcdefghijklmnop" 10,
              Effect.notifyAction
                "Container web (abcdefghijkl) found to be unhealthy. Successfully restarted the container!"] := by
  decide

/-- C2 counterexample: with budget 1, two bare `RecordRestart` calls (both
legal tracker operations) leave two entries in `restarts` while the circuit
is still closed, so the claimed invariant `len(restarts) ≤ budget whenever
circuitOpen is false and budget > 0` fails after a tracker operation. -/
theorem claim_C2_counterexample :
    (0 : ℤ) <
        (⟨2, 300, 600, 1, 300⟩ : TrackerConfig).restartBudget
    ∧ (recordRestartH ⟨2, 300, 600, 1, 300⟩ 1
        (recordRestartH ⟨2, 300, 600, 1, 300⟩ 0 emptyHistory)).circuitOpen = false
    ∧ ¬ (((recordRestartH ⟨2, 300, 600, 1, 300⟩ 1
          (recordRestartH ⟨2, 300, 600, 1, 300⟩ 0 emptyHistory)).restarts.length : ℤ)
        ≤ (⟨2, 300, 600, 1, 300⟩ : TrackerConfig).restartBudget) := by
  refine ⟨by decide, by decide, by decide⟩

/-- C3 counterexample: with budget 1 and window 300, one allowed
`ShouldRestart` followed by one `RecordRestart` at time 0 and a second
`ShouldRestart` still at time 0: nothing is pruned, yet the second
`ShouldRestart` returns `(false, backoff)`, not `(false, circuit)`. -/
theorem claim_C3_counterexample :
    (shouldRestartH ⟨2, 300, 600, 1, 300⟩ 0
        (applyTrackerOps ⟨2, 300, 600, 1, 300⟩ [TrackerOp.should 0, TrackerOp.record 0])).2
      = (false, SkipReason.skipBackoff)
    ∧ (pruneOld ⟨2, 300, 600, 1, 300⟩ 0
        (applyTrackerOps ⟨2, 300, 600, 1, 300⟩ [TrackerOp.should 0, TrackerOp.record 0])).restarts
      = (applyTrackerOps ⟨2, 300, 600, 1, 300⟩ [TrackerOp.should 0, TrackerOp.record 0]).restarts
    ∧ SkipReason.skipBackoff ≠ SkipReason.skipCircuit := by
  refine ⟨?_, ?_, by decide⟩ <;>
    norm_num [applyTrackerOps, applyTrackerOp, shouldRestartH, recordRestartH,
      pruneOld, pruneRestarts, emptyHistory]

/-- C4 counterexample: with `backoffMax` 1 s, a first `RecordRestart` on a
zero delay sets `backoffDelay` to the capped 1 s, not to the claimed
initial 10 s. -/
theorem claim_C4_counterexample :
    (recordRestartH ⟨2, 1, 600, 5, 300⟩ 0 emptyHistory).backoffDelay = 1
    ∧ (1 : ℚ) ≠ 10 := by
  refine ⟨by decide, by decide⟩

/-- Pruning never touches the circuit flag. -/
theorem pruneOld_circuitOpen (cfg : TrackerConfig) (now : ℚ) (h : ContainerHistory) :
    (pruneOld cfg now h).circuitOpen = h.circuitOpen := by
  unfold pruneOld
  split <;> rfl

/-- Pruning never touches the backoff deadline. -/
theorem pruneOld_backoffUntil (cfg : TrackerConfig) (now : ℚ) (h : ContainerHistory) :
    (pruneOld cfg now h).backoffUntil = h.backoffUntil := by
  unfold pruneOld
  split <;> rfl

/-- Pruning never touches the backoff delay. -/
theorem pruneOld_backoffDelay (cfg : TrackerConfig) (now : ℚ) (h : ContainerHistory) :
    (pruneOld cfg now h).backoffDelay = h.backoffDelay := by
  unfold pruneOld
  split <;> rfl

/-- C3 (amended): with a positive budget, a `ShouldRestart` call made once
the backoff has expired (now ≥ backoffUntil), while the circuit is closed
and at least `budget` recorded restarts survive pruning, returns
`(false, circuit)` and leaves `IsCircuitOpen` true; with budget 0, no
sequence of tracker calls ever makes `ShouldRestart` report `circuit`. -/
theorem claim_C3_budget_enforcement (cfg : TrackerConfig) :
    (∀ (tr : Tracker) (id : String) (now : ℚ),
      0 < cfg.restartBudget →
      ((tr id).getD emptyHistory).circuitOpen = false →
      ((tr id).getD emptyHistory).backoffUntil ≤ now →
      cfg.restartBudget ≤ ((pruneOld cfg now ((tr id).getD emptyHistory)).restarts.length : ℤ) →
      (trackerShouldRestart cfg now tr id).2 = (false, SkipReason.skipCircuit)
        ∧ trackerIsCircuitOpen (trackerShouldRestart cfg now tr id).1 id = true)
    ∧ (cfg.restartBudget = 0 →
      ∀ (ops : List TrackerOp) (t : ℚ),
        (shouldRestartH cfg t (applyTrackerOps cfg ops)).2.2 ≠ SkipReason.skipCircuit) := by
  constructor
  · intro tr id now hbud hc hbu hlen
    set h := (tr id).getD emptyHistory with hh
    have hc' : (pruneOld cfg now h).circuitOpen = false := by
      rw [pruneOld_circuitOpen]; exact hc
    have hbu' : ¬ now < (pruneOld cfg now h).backoffUntil := by
      rw [pruneOld_backoffUntil]; exact not_lt.mpr hbu
    have hsr : shouldRestartH cfg now h
        = ({ pruneOld cfg now h with circuitOpen := true }, false, SkipReason.skipCircuit) := by
      simp [shouldRestartH, hc', hbu', hbud, hlen]
    constructor
    · simp [trackerShouldRestart, ← hh, hsr]
    · simp [trackerShouldRestart, trackerIsCircuitOpen, trackerUpdate, ← hh, hsr]
  · intro hb ops t
    have hclosed : ∀ (l : List TrackerOp) (h0 : ContainerHistory),
        h0.circuitOpen = false → (l.foldl (applyTrackerOp cfg) h0).circuitOpen = false := by
      intro l
      induction l with
      | nil => intro h0 hc; simpa using hc
      | cons op rest ih =>
        intro h0 hc
        have hstep : (applyTrackerOp cfg h0 op).circuitOpen = false := by
          cases op with
          | record u => simpa [applyTrackerOp, recordRestartH] using hc
          | should u =>
            have hcp : (pruneOld cfg u h0).circuitOpen = false := by
              rw [pruneOld_circuitOpen]; exact hc
            have hnb : ¬ (0 < cfg.restartBudget ∧
                cfg.restartBudget ≤ ((pruneOld cfg u h0).restarts.length : ℤ)) := by
              rintro ⟨hpos, -⟩
              omega
            simp only [applyTrackerOp, shouldRestartH]
            by_cases hlt : u < (pruneOld cfg u h0).backoffUntil
            · simp [hcp, hlt]
            · simp [hcp, hlt, hnb]
        simpa [List.foldl_cons] using ih (applyTrackerOp cfg h0 op) hstep
    have hcl : (applyTrackerOps cfg ops).circuitOpen = false :=
      hclosed ops emptyHistory rfl
    have hcp : (pruneOld cfg t (applyTrackerOps cfg ops)).circuitOpen = false := by
      rw [pruneOld_circuitOpen]; exact hcl
    have hnb : ¬ (0 < cfg.restartBudget ∧ cfg.restartBudget ≤
        ((pruneOld cfg t (applyTrackerOps cfg ops)).restarts.length : ℤ)) := by
      rintro ⟨hpos, -⟩
      omega
    simp only [shouldRestartH]
    by_cases hlt : t < (pruneOld cfg t (applyTrackerOps cfg ops)).backoffUntil
    · simp [hcp, hlt]
    · simp [hcp, hlt, hnb]

/-- C3 witness: with budget 1, after one recorded restart at time 0 the
check at time 10 (when the 10-second backoff has just expired and the
restart is still inside the 300-second window) is refused with reason
circuit and the circuit is left open; and with a zero budget the check after
three bare records never reports circuit. -/
theorem claim_C3_witness :
    ((trackerShouldRestart ⟨2, 300, 600, 1, 300⟩ 10
        (trackerRecordRestart ⟨2, 300, 600, 1, 300⟩ 0 emptyTracker "c1") "c1").2
      = (false, SkipReason.skipCircuit)
      ∧ trackerIsCircuitOpen
          (trackerShouldRestart ⟨2, 300, 600, 1, 300⟩ 10
            (trackerRecordRestart ⟨2, 300, 600, 1, 300⟩ 0 emptyTracker "c1") "c1").1 "c1" = true)
    ∧ (shouldRestartH ⟨2, 300, 600, 0, 300⟩ 1
        (applyTrackerOps ⟨2, 300, 600, 0, 300⟩
          [TrackerOp.record 0, TrackerOp.record 0, TrackerOp.record 0])).2.2
      ≠ SkipReason.skipCircuit := by
  constructor
  · refine (claim_C3_budget_enforcement ⟨2, 300, 600, 1, 300⟩).1
      (trackerRecordRestart ⟨2, 300, 600, 1, 300⟩ 0 emptyTracker "c1") "c1" 10
      (by decide) ?_ ?_ ?_
    · norm_num [trackerRecordRestart, trackerUpdate, recordRestartH, emptyTracker, emptyHistory]
    · norm_num [trackerRecordRestart, trackerUpdate, recordRestartH, emptyTracker, emptyHistory]
    · norm_num [trackerRecordRestart, trackerUpdate, recordRestartH, emptyTracker, emptyHistory,
        pruneOld, pruneRestarts]
  · exact (claim_C3_budget_enforcement ⟨2, 300, 600, 0, 300⟩).2 rfl
      [TrackerOp.record 0, TrackerOp.record 0, TrackerOp.record 0] 1

/-- The pruning loop is a stable filter. -/
theorem pruneRestarts_eq_filter (cutoff : ℚ) (l : List ℚ) :
    pruneRestarts cutoff l = l.filter (fun t => decide (cutoff < t)) := by
  induction l with
  | nil => rfl
  | cons t ts ih =>
    by_cases hlt : cutoff < t
    · simp [pruneRestarts, hlt, ih]
    · simp [pruneRestarts, hlt, ih]

/-- Pruned restarts are a sublist (order-preserving selection) of the
original restarts. -/
theorem pruneOld_sublist (cfg : TrackerConfig) (now : ℚ) (h : ContainerHistory) :
    (pruneOld cfg now h).restarts.Sublist h.restarts := by
  unfold pruneOld
  split
  · exact List.Sublist.refl _
  · simp only [pruneRestarts_eq_filter]
    exact List.filter_sublist _

/-- Membership in the pruned restarts, when the window is positive: exactly
the entries strictly after `now - window` survive. -/
theorem pruneOld_mem (cfg : TrackerConfig) (now : ℚ) (h : ContainerHistory)
    (hw : 0 < cfg.restartWindow) (r : ℚ) :
    r ∈ (pruneOld cfg now h).restarts ↔ r ∈ h.restarts ∧ now - cfg.restartWindow < r := by
  have hw' : ¬ cfg.restartWindow ≤ 0 := not_le.mpr hw
  simp [pruneOld, hw', pruneRestarts_eq_filter, List.mem_filter]

/-- Invariant preservation by pruning. -/
theorem trackerInv_pruneOld (cfg : TrackerConfig) (now : ℚ) (h : ContainerHistory)
    (hInv : trackerInv cfg h) : trackerInv cfg (pruneOld cfg now h) := by
  obtain ⟨h1, h2, h3⟩ := hInv
  refine ⟨?_, ?_, ?_⟩
  · intro hc
    rw [pruneOld_circuitOpen] at hc
    have hle : (pruneOld cfg now h).restarts.length ≤ h.restarts.length :=
      (pruneOld_sublist cfg now h).length_le
    have := h1 hc
    omega
  · intro r hr
    rw [pruneOld_backoffUntil]
    exact h2 r ((pruneOld_sublist cfg now h).mem hr)
  · rw [pruneOld_backoffDelay]
    exact h3

/-- Invariant preservation by the state half of `ShouldRestart`. -/
theorem trackerInv_shouldRestart (cfg : TrackerConfig) (now : ℚ) (h : ContainerHistory)
    (hInv : trackerInv cfg h) : trackerInv cfg (shouldRestartH cfg now h).1 := by
  have hp := trackerInv_pruneOld cfg now h hInv
  obtain ⟨h1, h2, h3⟩ := hp
  simp only [shouldRestartH]
  split_ifs with hc hb hbud
  · exact ⟨h1, h2, h3⟩
  · exact ⟨h1, h2, h3⟩
  · exact ⟨fun hfalse => by simp at hfalse, h2, h3⟩
  · exact ⟨h1, h2, h3⟩

/-- What an allowed `ShouldRestart` tells us about the pruned history. -/
theorem shouldRestart_allowed (cfg : TrackerConfig) (now : ℚ) (h : ContainerHistory)
    (hall : (shouldRestartH cfg now h).2.1 = true) :
    (shouldRestartH cfg now h).1 = pruneOld cfg now h
    ∧ (pruneOld cfg now h).circuitOpen = false
    ∧ h.backoffUntil ≤ now
    ∧ ¬ (0 < cfg.restartBudget ∧
        cfg.restartBudget ≤ ((pruneOld cfg now h).restarts.length : ℤ)) := by
  simp only [shouldRestartH] at hall ⊢
  split_ifs at hall ⊢ with hc hb hbud
  exact ⟨rfl, by simpa using hc,
    by rw [← pruneOld_backoffUntil cfg now h]; exact not_lt.mp hb, hbud⟩

/-- The backoff delay stays nonnegative across `RecordRestart`. -/
theorem recordRestart_delay_nonneg (cfg : TrackerConfig) (t : ℚ) (h : ContainerHistory)
    (hm : 1 ≤ cfg.backoffMultiplier) (hx : 0 ≤ cfg.backoffMax)
    (hd : 0 ≤ h.backoffDelay) : 0 ≤ (recordRestartH cfg t h).backoffDelay := by
  have hd1 : 0 ≤ (if h.backoffDelay = 0 then (10 : ℚ) else h.backoffDelay * cfg.backoffMultiplier) := by
    split_ifs with h0
    · norm_num
    · exact mul_nonneg hd (le_trans zero_le_one hm)
  simp only [recordRestartH]
  set d1 := (if h.backoffDelay = 0 then (10 : ℚ) else h.backoffDelay * cfg.backoffMultiplier) with hd1def
  split_ifs with hcap
  · exact hx
  · exact hd1

/-- Invariant preservation by `RecordRestart`, under the engine's call
discipline: the budget is not yet exhausted and the record happens at or
after the backoff deadline. -/
theorem trackerInv_recordRestart (cfg : TrackerConfig) (t : ℚ) (h : ContainerHistory)
    (hm : 1 ≤ cfg.backoffMultiplier) (hx : 0 ≤ cfg.backoffMax)
    (hInv : trackerInv cfg h)
    (hlen : (h.restarts.length : ℤ) < cfg.restartBudget)
    (hbu : h.backoffUntil ≤ t) : trackerInv cfg (recordRestartH cfg t h) := by
  obtain ⟨h1, h2, h3⟩ := hInv
  have hd : 0 ≤ (recordRestartH cfg t h).backoffDelay :=
    recordRestart_delay_nonneg cfg t h hm hx h3
  refine ⟨?_, ?_, hd⟩
  · intro _
    have : (recordRestartH cfg t h).restarts.length = h.restarts.length + 1 := by
      simp [recordRestartH]
    omega
  · intro r hr
    have hbu' : (recordRestartH cfg t h).backoffUntil = t + (recordRestartH cfg t h).backoffDelay := by
      simp [recordRestartH]
    have hrests : (recordRestartH cfg t h).restarts = h.restarts ++ [t] := by
      simp [recordRestartH]
    rw [hrests] at hr
    rw [hbu']
    rcases List.mem_append.mp hr with hold | hnew
    · have := h2 r hold
      linarith
    · have : r = t := by simpa using hnew
      linarith

/-- C2 (amended): the data-model invariants hold for every history the
engine can produce — each `RecordRestart` is the second half of a
`checkedRestart`, i.e. it is preceded by an allowed `ShouldRestart` at an
earlier-or-equal time, as the unhealthy handler issues them — and, for a
positive window, pruning removes exactly the entries at or before
`now - window`, preserving the order of the rest. -/
theorem claim_C2_invariants (cfg : TrackerConfig) (ops : List EngineOp)
    (now : ℚ) (h : ContainerHistory)
    (hb : 0 < cfg.restartBudget) (hm : 1 ≤ cfg.backoffMultiplier)
    (hx : 0 ≤ cfg.backoffMax) (hwf : ∀ op ∈ ops, engineOpWF op) :
    trackerInv cfg (applyEngineOps cfg ops)
    ∧ (0 < cfg.restartWindow →
        (pruneOld cfg now h).restarts
            = h.restarts.filter (fun r => decide (now - cfg.restartWindow < r))
        ∧ (pruneOld cfg now h).restarts.Sublist h.restarts
        ∧ ∀ r, r ∈ (pruneOld cfg now h).restarts ↔
            r ∈ h.restarts ∧ ¬ (r ≤ now - cfg.restartWindow)) := by
  constructor
  · have main : ∀ (l : List EngineOp) (h0 : ContainerHistory),
        (∀ op ∈ l, engineOpWF op) → trackerInv cfg h0 →
        trackerInv cfg (l.foldl (applyEngineOp cfg) h0) := by
      intro l
      induction l with
      | nil => intro h0 _ hInv; simpa using hInv
      | cons op rest ih =>
        intro h0 hwf' hInv
        have hop : engineOpWF op := hwf' op (List.mem_cons_self op rest)
        have hrest : ∀ o ∈ rest, engineOpWF o := fun o ho => hwf' o (List.mem_cons_of_mem op ho)
        have hstep : trackerInv cfg (applyEngineOp cfg h0 op) := by
          cases op with
          | checkedRestart t1 t2 =>
            simp only [applyEngineOp]
            by_cases hall : (shouldRestartH cfg t1 h0).2.1 = true
            · obtain ⟨hst, hc, hbu, hnb⟩ := shouldRestart_allowed cfg t1 h0 hall
              have hle : t1 ≤ t2 := hop
              have hlen : ((pruneOld cfg t1 h0).restarts.length : ℤ) < cfg.restartBudget := by
                rcases not_and_or.mp hnb with hnpos | hlt
                · omega
                · omega
              have hInvP := trackerInv_pruneOld cfg t1 h0 hInv
              have hbuP : (pruneOld cfg t1 h0).backoffUntil ≤ t2 := by
                rw [pruneOld_backoffUntil]
                exact le_trans hbu hle
              rw [hall]
              simp only [if_true]
              rw [hst]
              exact trackerInv_recordRestart cfg t2 (pruneOld cfg t1 h0) hm hx hInvP hlen hbuP
            · have hall' : (shouldRestartH cfg t1 h0).2.1 = false := by
                simpa using hall
              rw [hall', if_neg Bool.false_ne_true]
              exact trackerInv_shouldRestart cfg t1 h0 hInv
          | shouldOnly t =>
            exact trackerInv_shouldRestart cfg t h0 hInv
          | resetOp =>
            simp only [applyEngineOp]
            refine ⟨fun _ => ?_, fun r hr => ?_, ?_⟩
            · simp only [emptyHistory, List.length_nil, Nat.cast_zero]
              omega
            · simp [emptyHistory] at hr
            · simp [emptyHistory]
          | recordUnhealthyOp =>
            obtain ⟨h1, h2, h3⟩ := hInv
            exact ⟨h1, h2, h3⟩
          | resetUnhealthyOp =>
            obtain ⟨h1, h2, h3⟩ := hInv
            exact ⟨h1, h2, h3⟩
        simpa [List.foldl_cons] using ih (applyEngineOp cfg h0 op) hrest hstep
    refine main ops emptyHistory hwf ?_
    refine ⟨fun _ => ?_, fun r hr => ?_, ?_⟩
    · simp only [emptyHistory, List.length_nil, Nat.cast_zero]
      omega
    · simp [emptyHistory] at hr
    · simp [emptyHistory]
  · intro hw
    have hw' : ¬ cfg.restartWindow ≤ 0 := not_le.mpr hw
    refine ⟨?_, pruneOld_sublist cfg now h, ?_⟩
    · simp [pruneOld, hw', pruneRestarts_eq_filter]
    · intro r
      rw [pruneOld_mem cfg now h hw r]
      constructor
      · rintro ⟨hmem, hlt⟩
        exact ⟨hmem, not_le.mpr hlt⟩
      · rintro ⟨hmem, hnle⟩
        exact ⟨hmem, not_le.mp hnle⟩

/-- C2 witness: the invariants hold after a concrete engine trace (an
allowed check-then-record at times 0, a refused check at time 3, a healthy
reset, and another checked restart), and pruning a concrete two-entry
history at time 310 with window 300 keeps exactly the entry after 10. -/
theorem claim_C2_witness :
    trackerInv defaultTrackerConfig
      (applyEngineOps defaultTrackerConfig
        [EngineOp.checkedRestart 0 0, EngineOp.shouldOnly 3, EngineOp.resetOp,
         EngineOp.checkedRestart 4 5])
    ∧ ((pruneOld defaultTrackerConfig 310
          { restarts := [10, 20], backoffUntil := 30, backoffDelay := 10,
            circuitOpen := false, unhealthyCount := 0 }).restarts
        = ([10, 20] : List ℚ).filter (fun r => decide ((310 : ℚ) - (300 : ℚ) < r))) := by
  constructor
  · exact (claim_C2_invariants defaultTrackerConfig
      [EngineOp.checkedRestart 0 0, EngineOp.shouldOnly 3, EngineOp.resetOp,
       EngineOp.checkedRestart 4 5] 0 emptyHistory
      (by decide) (by decide) (by decide)
      (by intro op hop; fin_cases hop <;> norm_num [engineOpWF])).1
  · have := (claim_C2_invariants defaultTrackerConfig [] 310
      { restarts := [10, 20], backoffUntil := 30, backoffDelay := 10,
        circuitOpen := false, unhealthyCount := 0 }
      (by decide) (by decide) (by decide) (by intro op hop; simp at hop)).2
      (by decide)
    exact this.1

/-- The Go cap `if max < d then max else d` is a minimum. -/
theorem goCap_eq_min (a b : ℚ) : (if b < a then b else a) = min a b := by
  split_ifs with hlt
  · exact (min_eq_right hlt.le).symm
  · exact (min_eq_left (not_lt.mp hlt)).symm

/-- The delay written by `RecordRestart`, as a minimum. -/
theorem recordRestartH_backoffDelay (cfg : TrackerConfig) (u : ℚ) (h : ContainerHistory) :
    (recordRestartH cfg u h).backoffDelay
      = min (if h.backoffDelay = 0 then 10 else h.backoffDelay * cfg.backoffMultiplier)
          cfg.backoffMax := by
  simp only [recordRestartH]
  exact goCap_eq_min _ _

/-- The deadline written by `RecordRestart`. -/
theorem recordRestartH_backoffUntil (cfg : TrackerConfig) (u : ℚ) (h : ContainerHistory) :
    (recordRestartH cfg u h).backoffUntil = u + (recordRestartH cfg u h).backoffDelay := rfl

/-- The restarts list written by `RecordRestart`. -/
theorem recordRestartH_restarts (cfg : TrackerConfig) (u : ℚ) (h : ContainerHistory) :
    (recordRestartH cfg u h).restarts = h.restarts ++ [u] := rfl

/-- One `RecordRestart` advances a delay of the closed form
`min (10·m^j) max` to `min (10·m^(j+1)) max`. -/
theorem backoffDelay_step (cfg : TrackerConfig) (hm : 1 ≤ cfg.backoffMultiplier)
    (hx : 0 ≤ cfg.backoffMax) (j : ℕ) (h : ContainerHistory)
    (hd : h.backoffDelay = min (10 * cfg.backoffMultiplier ^ j) cfg.backoffMax) (u : ℚ) :
    (recordRestartH cfg u h).backoffDelay
      = min (10 * cfg.backoffMultiplier ^ (j + 1)) cfg.backoffMax := by
  have hm0 : (0 : ℚ) < cfg.backoffMultiplier := lt_of_lt_of_le zero_lt_one hm
  have hpow : (0 : ℚ) < 10 * cfg.backoffMultiplier ^ j := by positivity
  rw [recordRestartH_backoffDelay, hd]
  rcases eq_or_lt_of_le hx with hmax0 | hmaxpos
  · have h1 : min (10 * cfg.backoffMultiplier ^ j) cfg.backoffMax = cfg.backoffMax :=
      min_eq_right (by rw [← hmax0]; exact hpow.le)
    rw [h1, ← hmax0, if_pos rfl]
    rw [min_eq_right (by norm_num : (0 : ℚ) ≤ 10),
      min_eq_right (by positivity : (0 : ℚ) ≤ 10 * cfg.backoffMultiplier ^ (j + 1))]
  · have hminpos : 0 < min (10 * cfg.backoffMultiplier ^ j) cfg.backoffMax :=
      lt_min hpow hmaxpos
    rw [if_neg hminpos.ne']
    rcases le_or_lt (10 * cfg.backoffMultiplier ^ j) cfg.backoffMax with hle | hgt
    · rw [min_eq_left hle]
      have : 10 * cfg.backoffMultiplier ^ j * cfg.backoffMultiplier
          = 10 * cfg.backoffMultiplier ^ (j + 1) := by ring
      rw [this]
    · rw [min_eq_right hgt.le]
      have h1 : cfg.backoffMax ≤ cfg.backoffMax * cfg.backoffMultiplier :=
        le_mul_of_one_le_right hmaxpos.le hm
      have h2 : 10 * cfg.backoffMultiplier ^ j ≤ 10 * cfg.backoffMultiplier ^ (j + 1) := by
        have hp : cfg.backoffMultiplier ^ j ≤ cfg.backoffMultiplier ^ (j + 1) :=
          pow_le_pow_right₀ hm (by omega)
        linarith
      rw [min_eq_right h1, min_eq_right (le_trans hgt.le h2)]

/-- Peeling one record off the front of a record sequence. -/
theorem recordSeq_cons (cfg : TrackerConfig) (s : ℚ) (rest : List ℚ) (h : ContainerHistory) :
    recordSeq cfg (s :: rest) h = recordSeq cfg rest (recordRestartH cfg s h) := rfl

/-- Peeling the final record off a record sequence. -/
theorem recordSeq_concat (cfg : TrackerConfig) (l : List ℚ) (t : ℚ) (h : ContainerHistory) :
    recordSeq cfg (l ++ [t]) h = recordRestartH cfg t (recordSeq cfg l h) := by
  simp [recordSeq, List.foldl_append]

/-- The closed form of the delay is preserved along any record sequence. -/
theorem recordSeq_delay_aux (cfg : TrackerConfig) (hm : 1 ≤ cfg.backoffMultiplier)
    (hx : 0 ≤ cfg.backoffMax) :
    ∀ (ts : List ℚ) (j : ℕ) (h : ContainerHistory),
      h.backoffDelay = min (10 * cfg.backoffMultiplier ^ j) cfg.backoffMax →
      (recordSeq cfg ts h).backoffDelay
        = min (10 * cfg.backoffMultiplier ^ (j + ts.length)) cfg.backoffMax := by
  intro ts
  induction ts with
  | nil =>
    intro j h hd
    simpa [recordSeq] using hd
  | cons s rest ih =>
    intro j h hd
    have hstep := backoffDelay_step cfg hm hx j h hd s
    have hres := ih (j + 1) (recordRestartH cfg s h) hstep
    rw [recordSeq_cons, hres]
    have : j + 1 + rest.length = j + (rest.length + 1) := by omega
    rw [this]
    simp

/-- The delay after the k-th record from a fresh history. -/
theorem recordSeq_delay (cfg : TrackerConfig) (hm : 1 ≤ cfg.backoffMultiplier)
    (hx : 0 ≤ cfg.backoffMax) (ts : List ℚ) (t : ℚ) :
    (recordSeq cfg (ts ++ [t]) emptyHistory).backoffDelay
      = min (10 * cfg.backoffMultiplier ^ ts.length) cfg.backoffMax := by
  cases ts with
  | nil =>
    rw [recordSeq_concat]
    have h0 : recordSeq cfg [] emptyHistory = emptyHistory := rfl
    rw [h0, recordRestartH_backoffDelay]
    simp [emptyHistory]
  | cons s rest =>
    have hcons : (s :: rest) ++ [t] = s :: (rest ++ [t]) := rfl
    rw [hcons, recordSeq_cons]
    have h0 : (recordRestartH cfg s emptyHistory).backoffDelay
        = min (10 * cfg.backoffMultiplier ^ 0) cfg.backoffMax := by
      rw [recordRestartH_backoffDelay]
      simp [emptyHistory]
    have := recordSeq_delay_aux cfg hm hx (rest ++ [t]) 0 (recordRestartH cfg s emptyHistory) h0
    rw [this]
    simp

/-- C4 (amended): after the k-th `RecordRestart`, the backoff delay and the
remaining backoff at the record time are exactly
`min(initialDelay × multiplier^(k-1), max)` (well within the claimed
1-second tolerance); each `RecordRestart` appends `now`, sets the delay to
the capped `min(initialDelay, max)` on a zero delay and to
`min(delay × multiplier, max)` otherwise, and sets
`backoffUntil = now + delay`. -/
theorem claim_C4_backoff_growth (cfg : TrackerConfig) (ts : List ℚ) (t : ℚ)
    (hm : 1 ≤ cfg.backoffMultiplier) (hx : 0 ≤ cfg.backoffMax) :
    (recordSeq cfg (ts ++ [t]) emptyHistory).backoffDelay
        = min (10 * cfg.backoffMultiplier ^ ts.length) cfg.backoffMax
    ∧ backoffRemainingH (recordSeq cfg (ts ++ [t]) emptyHistory) t
        = min (10 * cfg.backoffMultiplier ^ ts.length) cfg.backoffMax
    ∧ (∀ (h : ContainerHistory) (u : ℚ),
        (recordRestartH cfg u h).restarts = h.restarts ++ [u]
        ∧ (recordRestartH cfg u h).backoffDelay
            = min (if h.backoffDelay = 0 then 10 else h.backoffDelay * cfg.backoffMultiplier)
                cfg.backoffMax
        ∧ (recordRestartH cfg u h).backoffUntil = u + (recordRestartH cfg u h).backoffDelay) := by
  have hm0 : (0 : ℚ) < cfg.backoffMultiplier := lt_of_lt_of_le zero_lt_one hm
  have hdelay := recordSeq_delay cfg hm hx ts t
  have hdnn : 0 ≤ (recordSeq cfg (ts ++ [t]) emptyHistory).backoffDelay := by
    rw [hdelay]
    have : (0 : ℚ) ≤ 10 * cfg.backoffMultiplier ^ ts.length := by positivity
    exact le_min this hx
  refine ⟨hdelay, ?_, fun h u =>
    ⟨recordRestartH_restarts cfg u h, recordRestartH_backoffDelay cfg u h,
      recordRestartH_backoffUntil cfg u h⟩⟩
  have hbu : (recordSeq cfg (ts ++ [t]) emptyHistory).backoffUntil
      = t + (recordSeq cfg (ts ++ [t]) emptyHistory).backoffDelay := by
    rw [recordSeq_concat]
    rw [recordRestartH_backoffUntil]
  have hfinal : backoffRemainingH (recordSeq cfg (ts ++ [t]) emptyHistory) t
      = (recordSeq cfg (ts ++ [t]) emptyHistory).backoffDelay := by
    simp only [backoffRemainingH, hbu]
    have hsub : t + (recordSeq cfg (ts ++ [t]) emptyHistory).backoffDelay - t
        = (recordSeq cfg (ts ++ [t]) emptyHistory).backoffDelay := by ring
    rw [hsub, if_neg (not_lt.mpr hdnn)]
  rw [hfinal, hdelay]

/-- C4 witness: with the default config, the delay after records at 0 and
11 (the second spaced past the first 10 s backoff) is
`min(10·2, 300) = 20` seconds, and the remaining backoff right after the
second record is the same. -/
theorem claim_C4_witness :
    (recordSeq defaultTrackerConfig ([0] ++ [11]) emptyHistory).backoffDelay
        = min (10 * defaultTrackerConfig.backoffMultiplier ^ ([0] : List ℚ).length)
            defaultTrackerConfig.backoffMax
    ∧ backoffRemainingH (recordSeq defaultTrackerConfig ([0] ++ [11]) emptyHistory) 11
        = min (10 * defaultTrackerConfig.backoffMultiplier ^ ([0] : List ℚ).length)
            defaultTrackerConfig.backoffMax := by
  have h := claim_C4_backoff_growth defaultTrackerConfig [0] 11 (by norm_num [defaultTrackerConfig])
    (by norm_num [defaultTrackerConfig])
  exact ⟨h.1, h.2.1⟩

/-- C6: `shouldSkip` tests its guards in the fixed order orchestration,
grace, backup: an orchestration skip pre-empts the grace guard and a grace
skip pre-empts the backup guard; with scope `affected` the orchestration
guard fires exactly for a container whose name has an event in the ledger
within the cooldown window; and each skip emits the dispatcher text of the
triggering guard. -/
theorem claim_C6_guard_order (cfg : Config) (env : GuardEnv) (now : ℚ)
    (id name : String) (labels : Labels) (hid : 12 ≤ id.length) :
    (orchCond cfg env now (trimLeadingSlash name) = true →
      shouldSkip cfg env now id name labels
        = some (true, [skipMsgOrch (trimLeadingSlash name) ((id.toList.take 12).asString)]))
    ∧ (orchCond cfg env now (trimLeadingSlash name) = false →
       graceCond cfg env now = true →
      shouldSkip cfg env now id name labels
        = some (true, [skipMsgGrace (trimLeadingSlash name) ((id.toList.take 12).asString)]))
    ∧ (orchCond cfg env now (trimLeadingSlash name) = false →
       graceCond cfg env now = false →
       backupCond cfg env labels = true →
      shouldSkip cfg env now id name labels
        = some (true, [skipMsgBackup (trimLeadingSlash name) ((id.toList.take 12).asString)]))
    ∧ (orchCond cfg env now (trimLeadingSlash name) = false →
       graceCond cfg env now = false →
       backupCond cfg env labels = false →
      shouldSkip cfg env now id name labels = some (false, []))
    ∧ (cfg.watchtowerScope = "affected" →
        (orchCond cfg env now (trimLeadingSlash name) = true ↔
          (0 < cfg.watchtowerCooldown ∧
            isContainerInOrchestration (fetchOrchestrationEvents cfg env now)
              (trimLeadingSlash name) = true))) := by
  refine ⟨?_, ?_, ?_, ?_, ?_⟩
  · intro ho
    simp [shouldSkip, goSliceTo12, hid, ho]
  · intro ho hg
    simp [shouldSkip, goSliceTo12, hid, ho, hg]
  · intro ho hg hb
    simp [shouldSkip, goSliceTo12, hid, ho, hg, hb]
  · intro ho hg hb
    simp [shouldSkip, goSliceTo12, hid, ho, hg, hb]
  · intro hscope
    simp [orchCond, hscope]

/-- C6 witness: with cooldown 300, scope affected and a create event for
name web 5 seconds ago, the container named /web is skipped with the
orchestration text even though the grace and backup guards would also
fire. -/
theorem claim_C6_witness :
    shouldSkip
        { watchtowerCooldown := 300, watchtowerScope := "affected",
          watchtowerEvents := "orchestration", gracePeriod := 60,
          backupLabel := "backup", backupContainer := "", defaultStopTimeout := 10,
          dependencyStartDelay := 0, postRestartScript := "" }
        { eventLog := [{ name := "web", action := "create", time := -5 }],
          eventsErr := false, finishedAt := some (-30),
          running := some [{ names := ["/backup-job"], image := "offen/docker-volume-backup:latest" }] }
        0 "abcdefghijklmnop" "/web" [("backup", "true")]
      = some (true, [skipMsgOrch "web" "abcdefghijkl"]) := by
  have h := (claim_C6_guard_order
    { watchtowerCooldown := 300, watchtowerScope := "affected",
      watchtowerEvents := "orchestration", gracePeriod := 60,
      backupLabel := "backup", backupContainer := "", defaultStopTimeout := 10,
      dependencyStartDelay := 0, postRestartScript := "" }
    { eventLog := [{ name := "web", action := "create", time := -5 }],
      eventsErr := false, finishedAt := some (-30),
      running := some [{ names := ["/backup-job"], image := "offen/docker-volume-backup:latest" }] }
    0 "abcdefghijklmnop" "/web" [("backup", "true")] (by decide)).1
  have ho : orchCond
      { watchtowerCooldown := 300, watchtowerScope := "affected",
        watchtowerEvents := "orchestration", gracePeriod := 60,
        backupLabel := "backup", backupContainer := "", defaultStopTimeout := 10,
        dependencyStartDelay := 0, postRestartScript := "" }
      { eventLog := [{ name := "web", action := "create", time := -5 }],
        eventsErr := false, finishedAt := some (-30),
        running := some [{ names := ["/backup-job"], image := "offen/docker-volume-backup:latest" }] }
      0 (trimLeadingSlash "/web") = true := by
    norm_num [orchCond, fetchOrchestrationEvents, containerEventsQuery,
      isContainerInOrchestration, trimLeadingSlash, goTrimPre, goHasPre, charsLeading]
    decide
  have hmsg := h ho
  have htrim : trimLeadingSlash "/web" = "web" := by decide
  have htake : (("abcdefghijklmnop".toList.take 12).asString) = "abcdefghijkl" := by decide
  rw [hmsg, htrim, htake]

/-- C9: when the `finishedAt` runtime call fails, the grace-period guard is
bypassed — its condition is false regardless of `gracePeriod`, and whenever
the orchestration guard does not fire, `shouldSkip` falls through to the
backup guard's verdict; the container is never skipped with the grace
reason. -/
theorem claim_C9_grace_error_bypass (cfg : Config) (env : GuardEnv) (now : ℚ)
    (id name : String) (labels : Labels)
    (hid : 12 ≤ id.length) (hfa : env.finishedAt = none) :
    graceCond cfg env now = false
    ∧ (orchCond cfg env now (trimLeadingSlash name) = false →
        shouldSkip cfg env now id name labels
          = some (backupCond cfg env labels,
              if backupCond cfg env labels = true
              then [skipMsgBackup (trimLeadingSlash name) ((id.toList.take 12).asString)]
              else [])) := by
  have hg : graceCond cfg env now = false := by
    simp [graceCond, hfa]
  refine ⟨hg, fun ho => ?_⟩
  cases hbc : backupCond cfg env labels with
  | true => simp [shouldSkip, goSliceTo12, hid, ho, hg, hbc]
  | false => simp [shouldSkip, goSliceTo12, hid, ho, hg, hbc]

/-- C9 witness: grace period 60 s configured, `finishedAt` call failing,
no orchestration cooldown and no backup guard — the container is not
skipped. -/
theorem claim_C9_witness :
    shouldSkip
        { watchtowerCooldown := 0, watchtowerScope := "all",
          watchtowerEvents := "orchestration", gracePeriod := 60,
          backupLabel := "", backupContainer := "", defaultStopTimeout := 10,
          dependencyStartDelay := 0, postRestartScript := "" }
        { eventLog := [], eventsErr := false, finishedAt := none, running := none }
        5 "abcdefghijklmnop" "/db" []
      = some (false, []) := by
  have h := (claim_C9_grace_error_bypass
    { watchtowerCooldown := 0, watchtowerScope := "all",
      watchtowerEvents := "orchestration", gracePeriod := 60,
      backupLabel := "", backupContainer := "", defaultStopTimeout := 10,
      dependencyStartDelay := 0, postRestartScript := "" }
    { eventLog := [], eventsErr := false, finishedAt := none, running := none }
    5 "abcdefghijklmnop" "/db" [] (by decide) rfl).2 (by decide)
  have hb : backupCond
      { watchtowerCooldown := 0, watchtowerScope := "all",
        watchtowerEvents := "orchestration", gracePeriod := 60,
        backupLabel := "", backupContainer := "", defaultStopTimeout := 10,
        dependencyStartDelay := 0, postRestartScript := "" }
      { eventLog := [], eventsErr := false, finishedAt := none, running := none }
      [] = false := by decide
  rw [h, hb]
  simp

/-- An if-cascade headed by `some` is total whenever its else-spine is. -/
theorem isSome_ite_some {α : Type} (c : Prop) [Decidable c] (a : α) (o : Option α)
    (h : o.isSome = true) : (if c then some a else o).isSome = true := by
  split_ifs with hc
  · rfl
  · exact h

/-- A `checkUnhealthy` iteration on an id of length at least 12 always
returns a result (every branch of the cascade is total). -/
theorem checkUnhealthyStep_isSome (cfg : Config) (tcfg : TrackerConfig)
    (env : UnhealthyEnv) (now : ℚ) (tr : Tracker) (c : Summary)
    (h12 : 12 ≤ c.id.length) :
    (checkUnhealthyStep cfg tcfg env now tr c).isSome := by
  have hslice : goSliceTo12 c.id = some ((c.id.toList.take 12).asString) := by
    simp [goSliceTo12, h12]
  obtain ⟨v, hv⟩ : ∃ v, shouldSkip cfg env.guard now c.id
      (trimLeadingSlash (c.names.headD "")) c.labels = some v := by
    simp [shouldSkip, hslice]
  simp only [checkUnhealthyStep, hslice, Option.some_bind, hv]
  apply isSome_ite_some
  apply isSome_ite_some
  apply isSome_ite_some
  apply isSome_ite_some
  apply isSome_ite_some
  apply isSome_ite_some
  apply isSome_ite_some
  apply isSome_ite_some
  rfl

/-- C10: each operation that derives the 12-character short id is total
exactly on ids of length at least 12, and panics (returns `none`) on any
shorter id reaching the slice: `shouldSkip` always slices on entry; a
`checkUnhealthy` iteration slices once the container passed the opt-out
and names checks; a dependency-resolver iteration slices once the inspect
succeeded with a `container:` network mode and a running parent. -/
theorem claim_C10_short_id_slicing :
    (∀ (cfg : Config) (env : GuardEnv) (now : ℚ) (id name : String) (labels : Labels),
      (shouldSkip cfg env now id name labels).isSome ↔ 12 ≤ id.length)
    ∧ (∀ (cfg : Config) (tcfg : TrackerConfig) (env : UnhealthyEnv) (now : ℚ)
        (tr : Tracker) (c : Summary),
      (lookupLabel c.labels "autoheal" == some "False") = false →
      c.names.isEmpty = false →
      ((checkUnhealthyStep cfg tcfg env now tr c).isSome ↔ 12 ≤ c.id.length))
    ∧ (∀ (cfg : Config) (env : DepEnv) (now : ℚ) (c : Summary) (info : InspectInfo),
      env.inspectResult = some info →
      goHasPre info.networkMode "container:" = true →
      env.parentStatus1 = some "running" →
      (checkDependencyOrphansStep cfg env now c).isSome →
      12 ≤ c.id.length) := by
  refine ⟨?_, ?_, ?_⟩
  · intro cfg env now id name labels
    by_cases h12 : 12 ≤ id.length
    · simp [shouldSkip, goSliceTo12, h12]
    · simp [shouldSkip, goSliceTo12, h12]
  · intro cfg tcfg env now tr c hlab hnames
    constructor
    · intro hsome
      by_contra h12
      simp [checkUnhealthyStep, hlab, hnames, goSliceTo12, h12] at hsome
    · intro h12
      exact checkUnhealthyStep_isSome cfg tcfg env now tr c h12
  · intro cfg env now c info hins hpre hps hsome
    by_contra h12
    rw [checkDependencyOrphansStep] at hsome
    rw [hins] at hsome
    simp only [hpre, Bool.not_true, Bool.false_eq_true, if_false] at hsome
    rw [hps] at hsome
    simp [goSliceTo12, h12] at hsome

/-- C10 witness: `shouldSkip` panics on an 8-character id, while a
`checkUnhealthy` iteration on a 16-character id (no opt-out, one name)
returns a result. -/
theorem claim_C10_witness :
    (¬ (shouldSkip
        { watchtowerCooldown := 0, watchtowerScope := "all",
          watchtowerEvents := "orchestration", gracePeriod := 0,
          backupLabel := "", backupContainer := "", defaultStopTimeout := 10,
          dependencyStartDelay := 0, postRestartScript := "" }
        { eventLog := [], eventsErr := false, finishedAt := none, running := none }
        0 "abcdefgh" "/a" []).isSome)
    ∧ (checkUnhealthyStep
        { watchtowerCooldown := 0, watchtowerScope := "all",
          watchtowerEvents := "orchestration", gracePeriod := 0,
          backupLabel := "", backupContainer := "", defaultStopTimeout := 10,
          dependencyStartDelay := 0, postRestartScript := "" }
        defaultTrackerConfig
        { guard := { eventLog := [], eventsErr := false, finishedAt := none, running := none },
          restartOk := true, stopOk := true }
        0 emptyTracker
        { id := "abcdefghijklmnop", names := ["/web"], labels := [],
          state := "unhealthy" }).isSome := by
  constructor
  · intro hs
    have := (claim_C10_short_id_slicing.1
      { watchtowerCooldown := 0, watchtowerScope := "all",
        watchtowerEvents := "orchestration", gracePeriod := 0,
        backupLabel := "", backupContainer := "", defaultStopTimeout := 10,
        dependencyStartDelay := 0, postRestartScript := "" }
      { eventLog := [], eventsErr := false, finishedAt := none, running := none }
      0 "abcdefgh" "/a" []).mp hs
    exact absurd this (by decide)
  · exact (claim_C10_short_id_slicing.2.1
      { watchtowerCooldown := 0, watchtowerScope := "all",
        watchtowerEvents := "orchestration", gracePeriod := 0,
        backupLabel := "", backupContainer := "", defaultStopTimeout := 10,
        dependencyStartDelay := 0, postRestartScript := "" }
      defaultTrackerConfig
      { guard := { eventLog := [], eventsErr := false, finishedAt := none, running := none },
        restartOk := true, stopOk := true }
      0 emptyTracker
      { id := "abcdefghijklmnop", names := ["/web"], labels := [],
        state := "unhealthy" }
      (by decide) (by decide)).mpr (by decide)

end DockerGuardian
